import Mathlib

/-!
Verification of the damage-emitter block components of the Defensive Measures add-on
(src/BP/scripts/custom_components/blocks/DamageEmitters.ts and src/BP/scripts/main.ts).

The TypeScript is embedded shallowly:
* JS numbers reaching these components are either integers or NaN, so they are modelled
  as `Option Int` with `none` playing the role of NaN.
* `undefined`/`null` string values are modelled as `Option String` with `none` for both.
* A handler that can throw returns a result record carrying an `error : Option String`;
  mutations performed before a throw are reflected in the returned state, mutations after
  it are not, mirroring JS exception semantics.
* The host engine's entity scan (`block.dimension.getEntities` over the 0.5 x 1 x 0.5
  volume at the block's centre) is a trusted input, so each handler that scans receives
  the list of entity ids the scan returned.  `entity.applyDamage(d)` calls are collected
  in the `damaged` output list as (entity id, amount) pairs.
-/

namespace DefensiveMeasures

/-- JS `a ?? b` on possibly-nullish values: `b` only when `a` is `undefined`/`null`. -/
def jsNullish {α : Type} (a fallback : Option α) : Option α :=
  match a with
  | some x => some x
  | none => fallback

/-- `Math.floor` on the numbers that occur in these components: NaN (`none`) stays NaN,
and every other value here is already integral, so floor leaves it unchanged. -/
def jsFloor : Option Int → Option Int
  | none => none
  | some d => some d

/-- `Math.max(1, x)`: NaN absorbs (`Math.max(1, NaN)` is NaN), otherwise the larger
of `1` and `x`. -/
def jsMax1 : Option Int → Option Int
  | none => none
  | some d => some (max 1 d)

/-- JS template interpolation of a possibly-undefined string (`undefined` prints as the
text "undefined"). -/
def templateStr : Option String → String
  | some s => s
  | none => "undefined"

/-- `x.toString()` for the number model: NaN prints as "NaN". -/
def jsNumToString : Option Int → String
  | none => "NaN"
  | some d => toString d

/-- Numeric value of a run of decimal digit characters, accumulated the way
`parseInt` does. -/
def decDigitsVal (ds : List Char) : Nat :=
  ds.foldl (fun acc c => 10 * acc + (c.toNat - 48)) 0

/-- Hexadecimal digit test used by `parseInt` after an `0x` prefix. -/
def isHexDigitChar (c : Char) : Bool :=
  c.isDigit || ('a' ≤ c && c ≤ 'f') || ('A' ≤ c && c ≤ 'F')

/-- Value of one hexadecimal digit character. -/
def hexDigitVal (c : Char) : Nat :=
  if c.isDigit then c.toNat - 48
  else if 'a' ≤ c && c ≤ 'f' then c.toNat - 87
  else c.toNat - 55

/-- Numeric value of a run of hexadecimal digit characters. -/
def hexDigitsVal (ds : List Char) : Nat :=
  ds.foldl (fun acc c => 16 * acc + hexDigitVal c) 0

/-- JS `parseInt` with no radix argument, after whitespace and sign handling: an
`0x`/`0X` prefix switches to hexadecimal, otherwise the longest leading run of decimal
digits is read; no digits at all is NaN (`none`). -/
def parseIntDigits : List Char → Option Nat
  | '0' :: x :: rest =>
    if x = 'x' ∨ x = 'X' then
      match rest.takeWhile isHexDigitChar with
      | [] => none
      | ds => some (hexDigitsVal ds)
    else
      some (decDigitsVal (('0' :: x :: rest).takeWhile Char.isDigit))
  | cs =>
    match cs.takeWhile Char.isDigit with
    | [] => none
    | ds => some (decDigitsVal ds)

/-- JS `parseInt(s)`: skip leading whitespace, read an optional sign, then digits as in
`parseIntDigits`; the result is an integer or NaN (`none`). -/
def parseIntJs (s : String) : Option Int :=
  match s.data.dropWhile Char.isWhitespace with
  | '-' :: rest => (parseIntDigits rest).map (fun n => -(n : Int))
  | '+' :: rest => (parseIntDigits rest).map (fun n => (n : Int))
  | cs => (parseIntDigits cs).map (fun n => (n : Int))

/-- Search loop of JS `str.includes(sub)`: does `sub` occur as a contiguous run of
`hay`?  The prefix test is tried at every suffix of the haystack. -/
def jsIncludesAux (sub : List Char) : List Char → Bool
  | [] => sub.isEmpty
  | c :: t => sub.isPrefixOf (c :: t) || jsIncludesAux sub t

/-- JS `s.includes(sub)`. -/
def jsIncludes (s sub : String) : Bool :=
  jsIncludesAux sub.data s.data

/-- JS `s.replace(pat, "")` with a string pattern: only the first occurrence of the
pattern is deleted; if the pattern does not occur the string is unchanged. -/
def replaceFirst (pat : List Char) : List Char → List Char
  | [] => []
  | c :: rest =>
    if pat.isPrefixOf (c :: rest) then (c :: rest).drop pat.length
    else c :: replaceFirst pat rest

/-- String wrapper for `replaceFirst`, the shape used by `getParamValue`. -/
def replaceFirstStr (s pat : String) : String :=
  String.mk (replaceFirst pat.data s.data)

/-- A block as the handlers see it: the persisted permutation state
`dm:damage_on_step_triggered` and the block type's tag list. -/
structure Block where
  permTriggered : Bool
  tags : List String
deriving DecidableEq

/-- The fields of the abstract DamageEmitterComponent class after construction. -/
structure DamageEmitterFields where
  identifier : Option String
  triggered : Bool
  damage : Option Int
  continuous : Bool
deriving DecidableEq

/-- `DamageEmitterComponent.getParamValue(paramTag, tags)`
(DamageEmitters.ts lines 165-169): keep the tags whose text contains `paramTag`, take
element 0 of that array, and delete the first occurrence of `paramTag ++ ":"` from it.
The declared return type is string-or-undefined (`Option String` inside `ok`), but when
the filter result is empty, element 0 is `undefined` and calling `.replace` on it throws
a TypeError, modelled as the `error` case; `ok none` is never produced. -/
def DamageEmitterComponent.getParamValue (paramTag : String) (tags : List String) :
    Except String (Option String) :=
  match tags.filter (fun str => jsIncludes str paramTag) with
  | [] => .error "TypeError: cannot read replace of undefined"
  | str :: _ => .ok (some (replaceFirstStr str (paramTag ++ ":")))

/-- `DamageEmitterComponent.hasParam(paramTag, tags)` (lines 181-183): JS
`Array.includes`, element equality. -/
def DamageEmitterComponent.hasParam (paramTag : String) (tags : List String) : Bool :=
  tags.contains paramTag

/-- The constructor of the abstract class (lines 143-153).  The field initializer sets
`this.identifier` to `undefined` before the body runs, so the guard reduces to a check
on the argument: it throws exactly when the argument is `undefined`/`null` (the second
disjunct of the source guard, `this.identifier === null`, can never hold).  Afterwards
`this.identifier = identifier ?? this.identifier` and the default damage `1` is clamped
with `Math.max(1, Math.floor(...))`. -/
def DamageEmitterComponent.construct (identifier : Option String) :
    Except String DamageEmitterFields :=
  let thisIdentifier : Option String := none
  let thisDamage : Option Int := some 1
  if thisIdentifier = none ∧ identifier = none then
    .error "The identifier property must be defined."
  else
    .ok { identifier := jsNullish identifier thisIdentifier,
          triggered := false,
          damage := jsMax1 (jsFloor thisDamage),
          continuous := false }

/-- The in-memory fields of the one `DamageOnStepComponent` object: the inherited
emitter fields plus the subclass's `init` flag. -/
structure DamageOnStepState where
  identifier : Option String
  triggered : Bool
  damage : Option Int
  continuous : Bool
  init : Bool
deriving DecidableEq

/-- `this.parameterTags.damage`: the template string `identifier ++ "_damage"`. -/
def parameterTagDamage (identifier : Option String) : String :=
  templateStr identifier ++ "_damage"

/-- `this.parameterTags.continuous`: the template string `identifier ++ "_continuous"`. -/
def parameterTagContinuous (identifier : Option String) : String :=
  templateStr identifier ++ "_continuous"

/-- `new DamageOnStepComponent()` (lines 249-251): the super constructor runs with the
literal identifier and the subclass field initializer sets `init` to false. -/
def DamageOnStepComponent.construct : Except String DamageOnStepState :=
  match DamageEmitterComponent.construct (some "dm:damage_on_step") with
  | .error e => .error e
  | .ok f =>
    .ok { identifier := f.identifier, triggered := f.triggered, damage := f.damage,
          continuous := f.continuous, init := false }

/-- The state of the freshly constructed component, before any callback. -/
def initialState : DamageOnStepState :=
  { identifier := some "dm:damage_on_step", triggered := false, damage := some 1,
    continuous := false, init := false }

/-- Result of one handler invocation: the component fields and the event's block after
the call, the `applyDamage` calls made, and the exception escaping the handler, if any. -/
structure HandlerResult where
  state : DamageOnStepState
  block : Block
  damaged : List (Nat × Option Int)
  error : Option String
deriving DecidableEq

/-- `onStepOn` (lines 253-259): set `this.triggered = true` and immediately persist it
through `setPermutation(PERMUTATION.withState(..., this.triggered))`. -/
def DamageOnStepComponent.onStepOn (st : DamageOnStepState) (blk : Block) :
    HandlerResult :=
  let st2 := { st with triggered := true }
  { state := st2, block := { blk with permTriggered := st2.triggered },
    damaged := [], error := none }

/-- `onStepOff` (lines 261-287): scan the cell, apply `this.damage` to every entity
found, and only when the scan came back empty set `this.triggered = false` and persist
it.  `entities` is the scan result delivered by the host. -/
def DamageOnStepComponent.onStepOff (st : DamageOnStepState) (blk : Block)
    (entities : List Nat) : HandlerResult :=
  let stillHasEntity : Bool := decide (entities.length > 0)
  let damaged := entities.map (fun e => (e, st.damage))
  if !stillHasEntity then
    { state := { st with triggered := false },
      block := { blk with permTriggered := false }, damaged := damaged, error := none }
  else
    { state := st, block := blk, damaged := damaged, error := none }

/-- `onTick` (lines 289-340).  First tick: the source computes
`PERMUTATION.withState(..., false)` but discards the result without calling
`setPermutation`, so the block is left untouched; then
`getParamValue(this.parameterTags.damage, TAGS) ?? this.damage` — the `??` arm is
reachable only for an `ok none` result, which `getParamValue` never yields, and a thrown
TypeError escapes the handler before any field is written; on success the value is
parsed with `parseInt`, clamped, `continuous` is read with `hasParam` (its `??` arm is
dead too: `hasParam` returns a boolean), and `init` is set.  Later ticks run the damage
logic only while `this.triggered`. -/
def DamageOnStepComponent.onTick (st : DamageOnStepState) (blk : Block)
    (entities : List Nat) : HandlerResult :=
  if !st.init then
    match DamageEmitterComponent.getParamValue (parameterTagDamage st.identifier)
        blk.tags with
    | .error e => { state := st, block := blk, damaged := [], error := some e }
    | .ok v =>
      let damage0 : String :=
        match jsNullish v (some (jsNumToString st.damage)) with
        | some str => str
        | none => ""
      { state := { st with
          damage := jsMax1 (jsFloor (parseIntJs damage0)),
          continuous :=
            DamageEmitterComponent.hasParam (parameterTagContinuous st.identifier)
              blk.tags,
          init := true },
        block := blk, damaged := [], error := none }
  else if st.triggered then
    if entities.length = 0 then
      { state := { st with triggered := false },
        block := { blk with permTriggered := false }, damaged := [], error := none }
    else
      { state := st, block := blk,
        damaged := entities.map (fun e => (e, st.damage)), error := none }
  else
    { state := st, block := blk, damaged := [], error := none }

/-- The `DamageEmitters` array (lines 378-380): it holds the single
`DamageOnStepComponent` object that main.ts registers. -/
def DamageEmitters : List (Except String DamageOnStepState) :=
  [DamageOnStepComponent.construct]

/-- Names for two distinct blocks bearing the custom component. -/
inductive BlockId where
  | A
  | B
deriving DecidableEq

/-- A world with two blocks that both use `dm:damage_on_step`.  main.ts registers the
one object held in `DamageEmitters` with the block component registry at world
initialization, so the engine delivers the callbacks of BOTH blocks to that same
object: `comp` is shared, only the permutation is per block. -/
structure TwoBlockWorld where
  comp : DamageOnStepState
  blockA : Block
  blockB : Block
deriving DecidableEq

/-- The block a callback is delivered for. -/
def TwoBlockWorld.get : TwoBlockWorld → BlockId → Block
  | w, .A => w.blockA
  | w, .B => w.blockB

/-- Store a block back after a callback. -/
def TwoBlockWorld.set : TwoBlockWorld → BlockId → Block → TwoBlockWorld
  | w, .A, b => { w with blockA := b }
  | w, .B, b => { w with blockB := b }

/-- One engine callback delivery for one of the two blocks. -/
inductive BlockEvent where
  | stepOn (target : BlockId)
  | stepOff (target : BlockId) (entities : List Nat)
  | tick (target : BlockId) (entities : List Nat)

/-- Delivery of one callback: the shared component fields are read and written, the
event's own block is read and written, and the damage calls are returned. -/
def dispatch (w : TwoBlockWorld) : BlockEvent → TwoBlockWorld × List (Nat × Option Int)
  | .stepOn t =>
    let r := DamageOnStepComponent.onStepOn w.comp (w.get t)
    ({ w.set t r.block with comp := r.state }, r.damaged)
  | .stepOff t es =>
    let r := DamageOnStepComponent.onStepOff w.comp (w.get t) es
    ({ w.set t r.block with comp := r.state }, r.damaged)
  | .tick t es =>
    let r := DamageOnStepComponent.onTick w.comp (w.get t) es
    ({ w.set t r.block with comp := r.state }, r.damaged)

/-- `n` consecutive tick callbacks for one block whose cell stays empty; returns the
final component fields, the final block, and every damage call made on the way. -/
def tickIdle : Nat → DamageOnStepState → Block →
    DamageOnStepState × Block × List (Nat × Option Int)
  | 0, st, blk => (st, blk, [])
  | n + 1, st, blk =>
    let r := DamageOnStepComponent.onTick st blk []
    let rest := tickIdle n r.state r.block
    (rest.1, rest.2.1, r.damaged ++ rest.2.2)

/-! ## Helper lemmas -/

/-- Sanity: the modelled constructor produces exactly `initialState`. -/
theorem construct_eq_initialState :
    DamageOnStepComponent.construct = .ok initialState := rfl

/-- `(s ++ t).data` unfolds to the concatenation of the underlying character lists. -/
theorem dataAppend (s t : String) : (s ++ t).data = s.data ++ t.data :=
  String.data_append s t

/-- A list is a boolean prefix of itself followed by anything. -/
theorem isPrefixOf_append_self (l r : List Char) : l.isPrefixOf (l ++ r) = true := by
  rw [List.isPrefixOf_iff_prefix]
  exact List.prefix_append l r

/-- The `includes` search succeeds whenever the needle is a prefix of the haystack. -/
theorem jsIncludesAux_of_isPrefixOf (sub hay : List Char)
    (h : sub.isPrefixOf hay = true) : jsIncludesAux sub hay = true := by
  cases hay with
  | nil =>
    cases sub with
    | nil => rfl
    | cons a as => simp [List.isPrefixOf] at h
  | cons c t => simp [jsIncludesAux, h]

/-- Deleting the first occurrence of a nonempty pattern from a string that starts with
that very pattern leaves exactly the rest. -/
theorem replaceFirst_cancel (pat rest : List Char) (h : pat ≠ []) :
    replaceFirst pat (pat ++ rest) = rest := by
  cases pat with
  | nil => exact absurd rfl h
  | cons p ps =>
    have hpre : (p :: ps).isPrefixOf ((p :: ps) ++ rest) = true :=
      isPrefixOf_append_self (p :: ps) rest
    show replaceFirst (p :: ps) ((p :: ps) ++ rest) = rest
    rw [List.cons_append] at hpre ⊢
    simp only [replaceFirst, hpre, if_true]
    rw [← List.cons_append, List.drop_left]

/-- `getParamValue` on a single well-formed valued tag returns the suffix value. -/
theorem getParamValue_cons_tagged (pre s : String) :
    DamageEmitterComponent.getParamValue pre [pre ++ ":" ++ s] = .ok (some s) := by
  have hdata : (pre ++ ":" ++ s).data = pre.data ++ (':' :: s.data) := by
    rw [dataAppend, dataAppend]
    simp
  have hinc : jsIncludes (pre ++ ":" ++ s) pre = true := by
    unfold jsIncludes
    apply jsIncludesAux_of_isPrefixOf
    rw [hdata]
    exact isPrefixOf_append_self pre.data (':' :: s.data)
  have hrepl : replaceFirstStr (pre ++ ":" ++ s) (pre ++ ":") = s := by
    unfold replaceFirstStr
    have hdata2 : (pre ++ ":" ++ s).data = (pre ++ ":").data ++ s.data := by
      rw [hdata, dataAppend]
      simp
    rw [hdata2, replaceFirst_cancel]
    · rw [dataAppend]
      simp
  unfold DamageEmitterComponent.getParamValue
  simp only [List.filter, hinc, hrepl]

/-- First-tick initialization when the damage-tag lookup succeeds with value `s`:
the damage is parsed and clamped, `continuous` is read, `init` is set, and neither the
block nor anything else changes. -/
theorem onTick_init_core (st : DamageOnStepState) (blk : Block) (es : List Nat)
    (s : String) (hinit : st.init = false)
    (hpv : DamageEmitterComponent.getParamValue (parameterTagDamage st.identifier)
        blk.tags = .ok (some s)) :
    DamageOnStepComponent.onTick st blk es =
      { state := { st with
          damage := jsMax1 (jsFloor (parseIntJs s)),
          continuous := DamageEmitterComponent.hasParam
            (parameterTagContinuous st.identifier) blk.tags,
          init := true },
        block := blk, damaged := [], error := none } := by
  simp [DamageOnStepComponent.onTick, hinit, hpv, jsNullish]

/-- A tick on an already initialized, untriggered component changes nothing. -/
theorem onTick_inited_eq (st : DamageOnStepState) (blk : Block)
    (h1 : st.init = true) (h2 : st.triggered = false) :
    DamageOnStepComponent.onTick st blk [] =
      { state := st, block := blk, damaged := [], error := none } := by
  simp [DamageOnStepComponent.onTick, h1, h2]

/-- A tick on an untriggered component, whatever its `init` flag, keeps `triggered`
false, leaves the block untouched and damages nobody. -/
theorem onTick_idle_spec (st : DamageOnStepState) (blk : Block)
    (h : st.triggered = false) :
    (DamageOnStepComponent.onTick st blk []).state.triggered = false ∧
    (DamageOnStepComponent.onTick st blk []).block = blk ∧
    (DamageOnStepComponent.onTick st blk []).damaged = [] := by
  cases hst : st.init with
  | false =>
    cases hg : DamageEmitterComponent.getParamValue (parameterTagDamage st.identifier)
        blk.tags with
    | error e => simp [DamageOnStepComponent.onTick, hst, hg, h]
    | ok v => simp [DamageOnStepComponent.onTick, hst, hg, h]
  | true => simp [DamageOnStepComponent.onTick, hst, h]

/-- Applying the tick handler twice from an untriggered state gives the same component
fields as applying it once, and the second application damages nobody. -/
theorem onTick_idem (st : DamageOnStepState) (blk : Block) (h : st.triggered = false) :
    (DamageOnStepComponent.onTick (DamageOnStepComponent.onTick st blk []).state
        (DamageOnStepComponent.onTick st blk []).block []).state
      = (DamageOnStepComponent.onTick st blk []).state
  ∧ (DamageOnStepComponent.onTick (DamageOnStepComponent.onTick st blk []).state
        (DamageOnStepComponent.onTick st blk []).block []).damaged = [] := by
  refine ⟨?_, (onTick_idle_spec _ _ (onTick_idle_spec st blk h).1).2.2⟩
  cases hst : st.init with
  | true =>
    have he := onTick_inited_eq st blk hst h
    have hs : (DamageOnStepComponent.onTick st blk []).state = st := by rw [he]
    have hb : (DamageOnStepComponent.onTick st blk []).block = blk := by rw [he]
    rw [hs, hb]
    exact hs
  | false =>
    cases hg : DamageEmitterComponent.getParamValue (parameterTagDamage st.identifier)
        blk.tags with
    | error e =>
      have he : DamageOnStepComponent.onTick st blk [] =
          { state := st, block := blk, damaged := [], error := some e } := by
        simp [DamageOnStepComponent.onTick, hst, hg]
      have hs : (DamageOnStepComponent.onTick st blk []).state = st := by rw [he]
      have hb : (DamageOnStepComponent.onTick st blk []).block = blk := by rw [he]
      rw [hs, hb]
      exact hs
    | ok v =>
      have h1 : (DamageOnStepComponent.onTick st blk []).state.init = true := by
        simp [DamageOnStepComponent.onTick, hst, hg]
      have h2 : (DamageOnStepComponent.onTick st blk []).state.triggered = false := by
        simp [DamageOnStepComponent.onTick, hst, hg, h]
      rw [onTick_inited_eq _ _ h1 h2]

/-- Any number of empty-cell ticks from an untriggered state keeps `triggered` false,
never writes the block, and never damages anyone. -/
theorem tickIdle_spec (n : Nat) : ∀ (st : DamageOnStepState) (blk : Block),
    st.triggered = false →
    (tickIdle n st blk).1.triggered = false ∧ (tickIdle n st blk).2.1 = blk ∧
    (tickIdle n st blk).2.2 = [] := by
  induction n with
  | zero => exact fun st blk h => ⟨h, rfl, rfl⟩
  | succ n ih =>
    intro st blk h
    have hs := onTick_idle_spec st blk h
    have ihr := ih (DamageOnStepComponent.onTick st blk []).state
      (DamageOnStepComponent.onTick st blk []).block hs.1
    refine ⟨?_, ?_, ?_⟩
    · show (tickIdle n (DamageOnStepComponent.onTick st blk []).state
        (DamageOnStepComponent.onTick st blk []).block).1.triggered = false
      exact ihr.1
    · show (tickIdle n (DamageOnStepComponent.onTick st blk []).state
        (DamageOnStepComponent.onTick st blk []).block).2.1 = blk
      rw [ihr.2.1, hs.2.1]
    · show (DamageOnStepComponent.onTick st blk []).damaged ++
        (tickIdle n (DamageOnStepComponent.onTick st blk []).state
          (DamageOnStepComponent.onTick st blk []).block).2.2 = []
      rw [ihr.2.2, hs.2.2]
      rfl

/-! ## Claims -/

/-- Claim C1 (code bug): `getParamValue` does return the suffix value when a matching
tag exists, but on a tag list with NO matching tag it does not return undefined as its
own documentation promises: the source indexes the empty filter result and calls
`.replace` on `undefined`, so a TypeError is thrown.  The `ok none` (undefined) outcome
is never produced; the lookup either succeeds or faults. -/
theorem getParamValue_missing_tag_throws :
    DamageEmitterComponent.getParamValue "dm:damage_on_step_damage"
        ["dm:damage_on_step_damage:4"] = .ok (some "4")
  ∧ DamageEmitterComponent.getParamValue "dm:damage_on_step_damage" [] =
      .error "TypeError: cannot read replace of undefined"
  ∧ DamageEmitterComponent.getParamValue "dm:damage_on_step_damage"
        ["dm:damage_on_step_continuous"] =
      .error "TypeError: cannot read replace of undefined" := ⟨rfl, rfl, rfl⟩

/-- Claim C2 (code bug): the first-tick initializer does not recover from a missing or
malformed damage tag.  With no damage tag the TypeError from `getParamValue` escapes
`onTick` before any field is written (`init` stays false, so every later tick faults
the same way); the `?? this.damage` fallback is dead because `getParamValue` never
returns undefined.  With a present but unparsable value (`abc`) the damage becomes NaN
(`none`), not the previous/default value 1. -/
theorem onTick_init_fallback_bug :
    (DamageOnStepComponent.onTick initialState
        { permTriggered := false, tags := [] } []).error
      = some "TypeError: cannot read replace of undefined"
  ∧ (DamageOnStepComponent.onTick initialState
        { permTriggered := false, tags := [] } []).state = initialState
  ∧ (DamageOnStepComponent.onTick initialState
        { permTriggered := false, tags := ["dm:damage_on_step_damage:abc"] } []
      ).state.damage = none := ⟨rfl, rfl, rfl⟩

/-- Claim C3 (code bug): the runtime state is not per block instance.  main.ts
registers the single object held in `DamageEmitters`, so both blocks share its fields:
after a step-on delivered for block A, a tick for block B with entity 5 standing on B
damages that entity (the shared `triggered` flag is true), while the same tick without
A's callback damages nobody.  A's callback changed the state observed for B. -/
theorem shared_instance_state_bug :
    (dispatch (dispatch
        { comp := { identifier := some "dm:damage_on_step", triggered := false,
                    damage := some 2, continuous := false, init := true },
          blockA := { permTriggered := false, tags := [] },
          blockB := { permTriggered := false, tags := [] } }
        (.stepOn .A)).1 (.tick .B [5])).2 = [(5, some 2)]
  ∧ (dispatch
        { comp := { identifier := some "dm:damage_on_step", triggered := false,
                    damage := some 2, continuous := false, init := true },
          blockA := { permTriggered := false, tags := [] },
          blockB := { permTriggered := false, tags := [] } }
        (.tick .B [5])).2 = [] := ⟨rfl, rfl⟩

/-- Claim C4 (code bug): on the first tick the initializer does read and clamp the
damage and set `init`, but it does not put the block into a persisted-false Idle state:
the source builds the reset permutation with `withState` and discards it without
calling `setPermutation`, so a block whose persisted triggered state was true still
persists true after initialization. -/
theorem onTick_init_does_not_reset_persisted_state :
    (DamageOnStepComponent.onTick initialState
        { permTriggered := true, tags := ["dm:damage_on_step_damage:3"] } []
      ).state.init = true
  ∧ (DamageOnStepComponent.onTick initialState
        { permTriggered := true, tags := ["dm:damage_on_step_damage:3"] } []
      ).state.damage = some 3
  ∧ (DamageOnStepComponent.onTick initialState
        { permTriggered := true, tags := ["dm:damage_on_step_damage:3"] } []
      ).block.permTriggered = true := ⟨rfl, rfl, rfl⟩

/-- Claim C5 (confirmed): for a damage tag whose value string `parseInt` reads as the
non-negative integer `k` — for a decimal numeral, `k` is the floor of the supplied
number — the damage in effect after the first-tick initialization is `max 1 k`, the
handler does not fault, and the component is initialized.  In particular value 0
resolves to 1, never 0. -/
theorem onTick_init_damage_clamped (s : String) (k : Int) (b : Bool)
    (hparse : parseIntJs s = some k) (hk : 0 ≤ k) :
    (DamageOnStepComponent.onTick initialState
        { permTriggered := b, tags := ["dm:damage_on_step_damage:" ++ s] } []
      ).state.damage = some (max 1 k)
  ∧ (DamageOnStepComponent.onTick initialState
        { permTriggered := b, tags := ["dm:damage_on_step_damage:" ++ s] } []
      ).state.init = true
  ∧ (DamageOnStepComponent.onTick initialState
        { permTriggered := b, tags := ["dm:damage_on_step_damage:" ++ s] } []
      ).error = none := by
  have hpv : DamageEmitterComponent.getParamValue
      (parameterTagDamage initialState.identifier)
      ["dm:damage_on_step_damage:" ++ s] = .ok (some s) :=
    getParamValue_cons_tagged (parameterTagDamage initialState.identifier) s
  have hcore := onTick_init_core initialState
      { permTriggered := b, tags := ["dm:damage_on_step_damage:" ++ s] } [] s rfl hpv
  rw [hcore]
  refine ⟨?_, rfl, rfl⟩
  show jsMax1 (jsFloor (parseIntJs s)) = some (max 1 k)
  rw [hparse]
  rfl

/-- Witness for C5 at the concrete value 0: the tag `dm:damage_on_step_damage:0`
resolves to an effective damage of 1. -/
theorem onTick_init_damage_clamped_witness :
    parseIntJs "0" = some 0 ∧ (0 : Int) ≤ 0 ∧
    (DamageOnStepComponent.onTick initialState
        { permTriggered := false, tags := ["dm:damage_on_step_damage:" ++ "0"] } []
      ).state.damage = some (max 1 0) :=
  ⟨rfl, le_refl 0, (onTick_init_damage_clamped "0" 0 false rfl (le_refl 0)).1⟩

/-- Claim C6 (confirmed): every step-on callback sets the in-memory `triggered` flag to
true and persists true into the block state within the same callback, whatever the
prior values were; it damages nobody and cannot fault. -/
theorem onStepOn_sets_and_persists_triggered (st : DamageOnStepState) (blk : Block) :
    (DamageOnStepComponent.onStepOn st blk).state = { st with triggered := true }
  ∧ (DamageOnStepComponent.onStepOn st blk).block = { blk with permTriggered := true }
  ∧ (DamageOnStepComponent.onStepOn st blk).damaged = []
  ∧ (DamageOnStepComponent.onStepOn st blk).error = none := ⟨rfl, rfl, rfl, rfl⟩

/-- Claim C7 (confirmed): a tick received while initialized and triggered re-scans the
cell; with at least one occupant every occupant receives the full configured damage and
the component fields and block are unchanged (so `triggered` stays true); with no
occupant, `triggered` is set false in memory and persisted false.  No fault occurs. -/
theorem onTick_triggered_rescan (st : DamageOnStepState) (blk : Block)
    (entities : List Nat) (hinit : st.init = true) (htrig : st.triggered = true) :
    (DamageOnStepComponent.onTick st blk entities).error = none
  ∧ (entities ≠ [] →
        (DamageOnStepComponent.onTick st blk entities).damaged
          = entities.map (fun e => (e, st.damage))
      ∧ (DamageOnStepComponent.onTick st blk entities).state = st
      ∧ (DamageOnStepComponent.onTick st blk entities).block = blk)
  ∧ (entities = [] →
        (DamageOnStepComponent.onTick st blk entities).state.triggered = false
      ∧ (DamageOnStepComponent.onTick st blk entities).block.permTriggered = false) := by
  cases entities with
  | nil => refine ⟨?_, ?_, ?_⟩ <;> simp [DamageOnStepComponent.onTick, hinit, htrig]
  | cons e es =>
    refine ⟨?_, ?_, ?_⟩ <;> simp [DamageOnStepComponent.onTick, hinit, htrig]

/-- Witness for C7: two simultaneous occupants of a triggered cell each receive the
full damage 3 on that tick. -/
theorem onTick_triggered_rescan_witness :
    (DamageOnStepComponent.onTick
        { identifier := some "dm:damage_on_step", triggered := true, damage := some 3,
          continuous := false, init := true }
        { permTriggered := true, tags := [] } [7, 8]).damaged
      = [(7, some 3), (8, some 3)]
  ∧ (DamageOnStepComponent.onTick
        { identifier := some "dm:damage_on_step", triggered := true, damage := some 3,
          continuous := false, init := true }
        { permTriggered := true, tags := [] } [7, 8]).state.triggered = true := by
  have h := onTick_triggered_rescan
    { identifier := some "dm:damage_on_step", triggered := true, damage := some 3,
      continuous := false, init := true }
    { permTriggered := true, tags := [] } [7, 8] rfl rfl
  have h2 := h.2.1 (by simp)
  exact ⟨h2.1, by rw [h2.2.1]⟩

/-- Claim C8 (confirmed): every step-off callback re-scans the cell and applies the
configured damage to every entity still found; exactly when the scan comes back empty
it sets `triggered` false and persists false, and otherwise it leaves both the
component fields and the block unchanged.  No fault occurs. -/
theorem onStepOff_rescan_damage_and_reset (st : DamageOnStepState) (blk : Block)
    (entities : List Nat) :
    (DamageOnStepComponent.onStepOff st blk entities).damaged
      = entities.map (fun e => (e, st.damage))
  ∧ (DamageOnStepComponent.onStepOff st blk entities).error = none
  ∧ (if entities.isEmpty then
        (DamageOnStepComponent.onStepOff st blk entities).state
          = { st with triggered := false }
      ∧ (DamageOnStepComponent.onStepOff st blk entities).block.permTriggered = false
     else
        (DamageOnStepComponent.onStepOff st blk entities).state = st
      ∧ (DamageOnStepComponent.onStepOff st blk entities).block = blk) := by
  cases entities with
  | nil => refine ⟨?_, ?_, ?_⟩ <;> simp [DamageOnStepComponent.onStepOff]
  | cons e es => refine ⟨?_, ?_, ?_⟩ <;> simp [DamageOnStepComponent.onStepOff]

/-- Claim C9, counterexample: constructing an emitter with the EMPTY identifier string
does not raise the configuration error — the guard only fires on `undefined`/`null`,
so the claimed "fails on absent or empty identifier" is false at the empty string. -/
theorem construct_empty_identifier_accepted :
    DamageEmitterComponent.construct (some "") =
      .ok { identifier := some "", triggered := false, damage := some 1,
            continuous := false } := rfl

/-- Claim C9, amended (corrected): construction fails with the configuration error if
and only if the identifier argument is nullish (`undefined`/`null`, modelled `none`);
every supplied string, the empty string included, is accepted unchanged — non-emptiness
and namespacing are not checked. -/
theorem construct_fails_iff_nullish_identifier (o : Option String) :
    DamageEmitterComponent.construct o =
      (match o with
       | none => .error "The identifier property must be defined."
       | some s => .ok { identifier := some s, triggered := false, damage := some 1,
                         continuous := false }) := by
  cases o <;> rfl

/-- Claim C10 (confirmed): through any number of tick callbacks with no entity present,
starting untriggered, the `triggered` flag never becomes true (the final component
fields of every prefix of the sequence are untriggered), the block's persisted state is
never written, and no damage is ever applied; moreover the tick handler is idempotent
on this idle state: a second application returns exactly the component fields of the
first and damages nobody. -/
theorem idle_ticks_idempotent (n : Nat) (st : DamageOnStepState) (blk : Block)
    (h : st.triggered = false) :
    (tickIdle n st blk).1.triggered = false
  ∧ (tickIdle n st blk).2.1 = blk
  ∧ (tickIdle n st blk).2.2 = []
  ∧ (DamageOnStepComponent.onTick (DamageOnStepComponent.onTick st blk []).state
        (DamageOnStepComponent.onTick st blk []).block []).state
      = (DamageOnStepComponent.onTick st blk []).state
  ∧ (DamageOnStepComponent.onTick (DamageOnStepComponent.onTick st blk []).state
        (DamageOnStepComponent.onTick st blk []).block []).damaged = [] := by
  have ht := tickIdle_spec n st blk h
  have hi := onTick_idem st blk h
  exact ⟨ht.1, ht.2.1, ht.2.2, hi.1, hi.2⟩

/-- Witness for C10: three idle ticks on an initialized, untriggered component leave
everything unchanged and damage nobody. -/
theorem idle_ticks_idempotent_witness :
    (tickIdle 3
        { identifier := some "dm:damage_on_step", triggered := false, damage := some 2,
          continuous := false, init := true }
        { permTriggered := false, tags := [] }).1.triggered = false
  ∧ (tickIdle 3
        { identifier := some "dm:damage_on_step", triggered := false, damage := some 2,
          continuous := false, init := true }
        { permTriggered := false, tags := [] }).2.2 = [] := by
  have h := idle_ticks_idempotent 3
    { identifier := some "dm:damage_on_step", triggered := false, damage := some 2,
      continuous := false, init := true }
    { permTriggered := false, tags := [] } rfl
  exact ⟨h.1, h.2.2.1⟩

end DefensiveMeasures
